import Mathlib

/-!
# Verification of the caching/orchestration core of retell-ghl-zep

A shallow embedding of the multi-layer read-through cache and the webhook
context-assembly orchestrator of this repository (`src/cached_clients.py`
and `src/main.py`), with theorems settling the behavioural claims about it.

Modelling conventions, fixed once here:

* JSON values are the inductive `JVal`; a Python dict is an insertion-ordered
  association list (`Dict`).  `json.dumps`/`json.loads` round-trip on the
  JSON-representable dicts this system caches, so the store holds the values
  themselves; a present entry's serialization is a nonempty string, hence
  Python's `if cached:` truthiness test on the raw Redis string is modelled
  as a presence test.
* Redis is `RedisState`: an entry list with absolute expiry timestamps plus a
  `failing` flag; when `failing` is set every store operation raises, which is
  how the code paths that swallow store errors are exercised.  `SETEX` conses
  the new entry in front; `redisGet` reads the first live entry for a key, so
  the newest write shadows any older one (observationally equal to physical
  replacement).
* Exceptions are `Except Unit`; `asyncio.gather(..., return_exceptions=True)`
  yields a list of `Except Unit JVal`.  The concurrent sub-fetches of one
  request touch disjoint key families, so their store effects are threaded
  sequentially.
* Wall-clock reads (`datetime.utcnow()` and the derived date strings) are
  inputs of the environment (`Env`), not effects.
-/

/-- A JSON value, as produced by `json.loads`: the payloads this system
passes between Redis, the upstream clients and the webhook response. -/
inductive JVal where
  | null
  | str (s : String)
  | num (n : Int)
  | bool (b : Bool)
  | arr (xs : List JVal)
  | obj (fs : List (String × JVal))

/-- A Python dict with string keys, in insertion order. -/
abbrev Dict := List (String × JVal)

/-- Python dict assignment `d[k] = v`: replace the value in place when the
key is present, append otherwise. -/
def dictSet : Dict → String → JVal → Dict
  | [], k, v => [(k, v)]
  | (k', v') :: rest, k, v =>
    if k' = k then (k, v) :: rest else (k', v') :: dictSet rest k v

/-- Python `d.get(k)` (None when absent). -/
def dictGet : Dict → String → Option JVal
  | [], _ => none
  | (k', v') :: rest, k => if k' = k then some v' else dictGet rest k

/-- Python truthiness of a JSON value (`if x:`). -/
def jTruthy : JVal → Bool
  | .null => false
  | .str s => !s.isEmpty
  | .num n => n != 0
  | .bool b => b
  | .arr xs => !xs.isEmpty
  | .obj fs => !fs.isEmpty

/-- Python `v.get(k, d)` on a dict-valued JSON value.  The collaborator
contracts (§6 of the spec) give dicts everywhere `.get` is called; a
non-dict falls back to the default. -/
def jGetD (v : JVal) (k : String) (d : JVal) : JVal :=
  match v with
  | .obj fs => (dictGet fs k).getD d
  | _ => d

/-- Python `k in v` for the dict/list values that reach it
(`"error" not in slots_result`). -/
def jHas (v : JVal) (k : String) : Bool :=
  match v with
  | .obj fs => fs.any (fun p => p.1 == k)
  | .arr xs => xs.any (fun x => match x with | .str s => s == k | _ => false)
  | _ => false

/-- `v.get("slots", [])` followed by list iteration: the slot list of a
slots result (a non-list value contributes nothing iterable). -/
def jGetList (v : JVal) (k : String) : List JVal :=
  match jGetD v k (.arr []) with
  | .arr xs => xs
  | _ => []

/-- Python `len` on the values it is applied to here (lists). -/
def jLen : JVal → Nat
  | .arr xs => xs.length
  | .str s => s.length
  | .obj fs => fs.length
  | _ => 0

/-- `body.get("call_id")` injected into a payload: a missing field is None. -/
def jOfOptStr : Option String → JVal
  | some s => .str s
  | none => .null

/-! ## The Redis store -/

/-- One live Redis entry: key, (deserialized) value, absolute expiry. -/
structure StoreEntry where
  key : String
  val : JVal
  expiresAt : Nat

/-- The store: its entries plus a fault flag under which every operation
raises (store unavailability). -/
structure RedisState where
  failing : Bool
  entries : List StoreEntry

/-- `redis.get(key)` at time `now`: the newest unexpired entry for the key,
`none` on miss; raises when the store is failing. -/
def redisGet (st : RedisState) (now : Nat) (k : String) : Except Unit (Option JVal) :=
  if st.failing then .error () else
    .ok ((st.entries.find? (fun e => e.key == k && decide (now < e.expiresAt))).map (·.val))

/-- `redis.setex(key, ttl, value)` at time `now`: the new entry shadows any
older entry with the same key; raises when the store is failing. -/
def redisSetex (st : RedisState) (now : Nat) (k : String) (ttl : Nat) (v : JVal) :
    Except Unit RedisState :=
  if st.failing then .error () else
    .ok { st with entries := ⟨k, v, now + ttl⟩ :: st.entries }

/-! ## Cache keys (`src/cached_clients.py`) -/

/-- `f"memory:{user_id}"` — the memory wrapper's cache key (line 48). -/
def memory_cache_key (user_id : String) : String := "memory:" ++ user_id

/-- `f"slots:{calendar_id}:{start_date}:{end_date}:{timezone}"` — the slot
wrapper's cache key (line 138). -/
def slots_cache_key (calendar_id start_date end_date timezone : String) : String :=
  "slots:" ++ calendar_id ++ ":" ++ start_date ++ ":" ++ end_date ++ ":" ++ timezone

/-- `f"context:{phone}"` — the full-context cache key (lines 230, 257). -/
def context_cache_key (phone : String) : String := "context:" ++ phone

/-- `f"slots:{calendar_id}:*"` — the glob pattern `invalidate_slot` scans
with (line 185). -/
def slots_invalidate_pattern (calendar_id : String) : String :=
  "slots:" ++ calendar_id ++ ":*"

/-- Skip a run of consecutive `*`s in a pattern (Redis collapses them). -/
def dropStars : List Char → List Char
  | [] => []
  | a :: rest => if a = '*' then dropStars rest else a :: rest

/-- One `[...]` character class of a Redis glob, read from the characters
after the `[` (negation already handled by the caller): whether the target
character matched any item, and the pattern after the closing `]`.  As in
Redis's `stringmatchlen`: `\x` is the literal `x`, `a-b` is a range (with
the bounds swapped when reversed), `]` ends the class, and a class the
pattern ends before closing is treated as ending with the pattern. -/
def classMatch : List Char → Char → Bool → Bool × List Char
  | [], _, acc => (acc, [])
  | ']' :: rest, _, acc => (acc, rest)
  | '\\' :: x :: rest, c, acc => classMatch rest c (acc || x == c)
  | a :: '-' :: b :: rest, c, acc =>
    classMatch rest c
      (acc || (decide (min a.toNat b.toNat ≤ c.toNat) &&
               decide (c.toNat ≤ max a.toNat b.toNat)))
  | a :: rest, c, acc => classMatch rest c (acc || a == c)

/-- One non-`*` step of the Redis glob matcher: pattern head `p` (with tail
`ps`) against one string character `c`; the remaining pattern when the
character is accepted, `none` otherwise.  `?` accepts any character; `[`
opens a class (a leading `^` negates it); `\` escapes the next pattern
character (a trailing lone `\` is the literal `\`); anything else matches
itself. -/
def stepOne (p : Char) (ps : List Char) (c : Char) : Option (List Char) :=
  if p = '?' then some ps
  else if p = '[' then
    match ps with
    | '^' :: rest =>
      let r := classMatch rest c false
      if r.1 then none else some r.2
    | rest =>
      let r := classMatch rest c false
      if r.1 then some r.2 else none
  else if p = '\\' then
    match ps with
    | x :: rest => if x = c then some rest else none
    | [] => if p = c then some [] else none
  else if p = c then some ps else none

/-- Redis glob matching for the `MATCH` argument of `SCAN`, transcribed
from Redis's `stringmatchlen` (case-sensitive): `*` matches any run of
characters, `?` any one character, `[...]` a character class, `\` escapes;
a collapsed run of `*` ending the pattern matches the rest, and when the
string runs out first only trailing `*`s may remain (in particular, as in
Redis, a nonempty pattern never matches the empty string unless the loop
ran).  `stringmatchlen`'s `skipLongerMatches` pruning is a pure
optimization and is not modelled.  Fuel-driven so that it reduces by
kernel computation; the initial fuel in `globMatch` strictly bounds the
recursion depth. -/
def redisGlobAux : Nat → List Char → List Char → Bool
  | 0, _, _ => false
  | fuel + 1, pat, s =>
    match pat, s with
    | [], [] => true
    | [], _ :: _ => false
    | _ :: _, [] => false
    | p :: ps, c :: cs =>
      if p = '*' then
        match dropStars ps with
        | [] => true
        | ps' => redisGlobAux fuel ps' (c :: cs) || redisGlobAux fuel ('*' :: ps') cs
      else
        match stepOne p ps c with
        | none => false
        | some ps' =>
          match cs with
          | [] => (dropStars ps').isEmpty
          | _ :: _ => redisGlobAux fuel ps' cs

/-- Redis glob matching of a whole key against a pattern. -/
def globMatch (pat s : String) : Bool :=
  redisGlobAux (pat.length + s.length + 2) pat.data s.data

/-- The string `p` is a literal prefix of `s`. -/
def strHasPrefix (p s : String) : Bool := p.data.isPrefixOf s.data

/-! ## Identity normalization (`src/main.py` lines 702-703 and 891-892) -/

/-- Python `s.replace(c, "")` for a one-character pattern: every occurrence
of the character is removed. -/
def pyRemoveChar (s : String) (c : Char) : String :=
  String.mk (s.data.filter (fun a => a != c))

/-- `from_number.replace("+", "").replace("-", "").replace(" ", "")` — the
identity normalization applied to the caller's phone number, identical at
both call sites. -/
def normalize_phone (from_number : String) : String :=
  pyRemoveChar (pyRemoveChar (pyRemoveChar from_number '+') '-') ' '

/-! ## Read-through cache wrappers (`src/cached_clients.py`) -/

/-- `CachedMemoryClient.cache_ttl = 300`. -/
def memoryCacheTtl : Nat := 300

/-- `CachedCalendarClient.cache_ttl = 180`. -/
def slotsCacheTtl : Nat := 180

/-- `ContextCache.cache_ttl = 300`. -/
def contextCacheTtl : Nat := 300

/-- Outcome of one wrapper fetch: the returned value (or the propagated
upstream exception), the store afterwards, and how many upstream calls the
fetch made. -/
structure FetchOut where
  result : Except Unit JVal
  store : RedisState
  upstreamCalls : Nat

/-- `CachedMemoryClient.get_memory` (lines 31-82).  The Redis read is
attempted unless `force_refresh` and a read error is logged and treated as
a miss; on miss the Zep upstream is called (its exception propagates); the
write-back error is swallowed. -/
def get_memory (zep : String → Option String → Except Unit JVal)
    (st : RedisState) (now : Nat)
    (user_id : String) (session_id : Option String) (force_refresh : Bool) : FetchOut :=
  let cache_key := memory_cache_key user_id
  let cached : Option JVal :=
    if force_refresh then none
    else
      match redisGet st now cache_key with
      | .error _ => none
      | .ok v => v
  match cached with
  | some v => ⟨.ok v, st, 0⟩
  | none =>
    match zep user_id session_id with
    | .error e => ⟨.error e, st, 1⟩
    | .ok memory =>
      let st' :=
        match redisSetex st now cache_key memoryCacheTtl memory with
        | .error _ => st
        | .ok s => s
      ⟨.ok memory, st', 1⟩

/-- `CachedCalendarClient.get_available_slots` (lines 116-174), same shape
as `get_memory` with the slot key and the shorter TTL. -/
def get_available_slots (ghl : String → String → String → String → Except Unit JVal)
    (st : RedisState) (now : Nat)
    (calendar_id start_date end_date timezone : String) (force_refresh : Bool) : FetchOut :=
  let cache_key := slots_cache_key calendar_id start_date end_date timezone
  let cached : Option JVal :=
    if force_refresh then none
    else
      match redisGet st now cache_key with
      | .error _ => none
      | .ok v => v
  match cached with
  | some v => ⟨.ok v, st, 0⟩
  | none =>
    match ghl calendar_id start_date end_date timezone with
    | .error e => ⟨.error e, st, 1⟩
    | .ok slots =>
      let st' :=
        match redisSetex st now cache_key slotsCacheTtl slots with
        | .error _ => st
        | .ok s => s
      ⟨.ok slots, st', 1⟩

/-- `CachedCalendarClient.invalidate_slot` (lines 176-200): the SCAN loop
enumerates every key of the store matching `slots:{calendar_id}:*` and
deletes it; any store error is swallowed leaving the store as it was. -/
def invalidate_slot (st : RedisState) (calendar_id : String) : RedisState :=
  if st.failing then st
  else
    { st with
      entries :=
        st.entries.filter
          (fun e => !globMatch (slots_invalidate_pattern calendar_id) e.key) }

/-- `ContextCache.get_context` (lines 220-241): a store error is logged and
reported as a miss. -/
def get_context (st : RedisState) (now : Nat) (phone : String) : Option JVal :=
  match redisGet st now (context_cache_key phone) with
  | .error _ => none
  | .ok v => v

/-- `ContextCache.set_context` (lines 243-268) at the default TTL; a store
error is logged and swallowed. -/
def set_context (st : RedisState) (now : Nat) (phone : String) (context : JVal) : RedisState :=
  match redisSetex st now (context_cache_key phone) contextCacheTtl context with
  | .error _ => st
  | .ok s => s

/-! ## Slot timestamp parsing and formatting

The handler and the background refresh both run, verbatim, the loop

    for slot in available_slots[:5]:
        try:
            slot_time = datetime.fromisoformat(slot.replace('Z', '+00:00'))
            formatted_slots.append({...})
        except Exception:
            pass

(`src/main.py` lines 820-831 and 582-593).  `datetime.fromisoformat` is
modelled for the shapes that occur here: `YYYY-MM-DD`, optionally followed
by a `T` or space separator, `HH:MM`, optional `:SS` and an optional
`±HH:MM` offset, with calendar-valid fields; fractional seconds and
exotic separators are not modelled and such strings are rejected, which the
loop turns into omission, the same handling Python gives them. -/

/-- A parsed naive timestamp (the offset, once validated, is dropped:
`strftime` formats the local fields). -/
structure PyDateTime where
  year : Nat
  month : Nat
  day : Nat
  hour : Nat
  minute : Nat
  second : Nat
deriving DecidableEq

/-- Python `s.replace(c, rep)` for a one-character pattern: every occurrence
of `c` becomes `rep`. -/
def pyReplaceCharStr (s : String) (c : Char) (rep : String) : String :=
  String.mk ((s.data.map (fun a => if a = c then rep.data else [a])).flatten)

/-- The value of a decimal digit character. -/
def digitVal (c : Char) : Option Nat :=
  if c.isDigit then some (c.toNat - 48) else none

/-- Two decimal digits and the rest of the input. -/
def read2 : List Char → Option (Nat × List Char)
  | a :: b :: rest =>
    match digitVal a, digitVal b with
    | some x, some y => some (x * 10 + y, rest)
    | _, _ => none
  | _ => none

/-- Four decimal digits and the rest of the input. -/
def read4 : List Char → Option (Nat × List Char)
  | a :: b :: c :: d :: rest =>
    match digitVal a, digitVal b, digitVal c, digitVal d with
    | some w, some x, some y, some z => some (((w * 10 + x) * 10 + y) * 10 + z, rest)
    | _, _, _, _ => none
  | _ => none

/-- Gregorian leap year. -/
def isLeap (y : Nat) : Bool := y % 4 == 0 && (y % 100 != 0 || y % 400 == 0)

/-- Days in a month of a given year. -/
def daysInMonth (y m : Nat) : Nat :=
  if m = 2 then (if isLeap y then 29 else 28)
  else if m = 4 ∨ m = 6 ∨ m = 9 ∨ m = 11 then 30
  else 31

/-- A valid `±HH:MM` UTC offset, or no offset at all. -/
def validOffset : List Char → Bool
  | [] => true
  | sign :: rest =>
    (sign = '+' || sign = '-') &&
      match read2 rest with
      | some (oh, ':' :: rest2) =>
        decide (oh ≤ 23) &&
          match read2 rest2 with
          | some (om, []) => decide (om ≤ 59)
          | _ => false
      | _ => false

/-- The `HH:MM[:SS]` time part followed by an optional offset; an empty
input is a date-only timestamp (midnight). -/
def parseTimePart : List Char → Option (Nat × Nat × Nat)
  | [] => some (0, 0, 0)
  | sep :: rest =>
    if sep = 'T' || sep = ' ' then
      match read2 rest with
      | some (h, ':' :: r2) =>
        match read2 r2 with
        | some (mi, r3) =>
          match r3 with
          | ':' :: r4 =>
            match read2 r4 with
            | some (sec, r5) => if validOffset r5 then some (h, mi, sec) else none
            | none => none
          | r5 => if validOffset r5 then some (h, mi, 0) else none
        | none => none
      | _ => none
    else none

/-- `datetime.fromisoformat` on the shapes described above, with Python's
range validation (a slot like `"not a date"` yields `none`). -/
def parseIso (s : String) : Option PyDateTime :=
  match read4 s.data with
  | some (y, '-' :: r1) =>
    match read2 r1 with
    | some (mo, '-' :: r2) =>
      match read2 r2 with
      | some (d, rest) =>
        match parseTimePart rest with
        | some (h, mi, sec) =>
          if 1 ≤ y ∧ 1 ≤ mo ∧ mo ≤ 12 ∧ 1 ≤ d ∧ d ≤ daysInMonth y mo ∧
              h ≤ 23 ∧ mi ≤ 59 ∧ sec ≤ 59 then
            some ⟨y, mo, d, h, mi, sec⟩
          else none
        | none => none
      | none => none
    | _ => none
  | _ => none

/-- Zero-padded two-digit rendering (`%d`, `%m`, `%I`, `%M`). -/
def pad2 (n : Nat) : String := if n < 10 then "0" ++ toString n else toString n

/-- Zero-padded four-digit rendering (`%Y`). -/
def pad4 (n : Nat) : String :=
  if n < 10 then "000" ++ toString n
  else if n < 100 then "00" ++ toString n
  else if n < 1000 then "0" ++ toString n
  else toString n

/-- `%B`: the full month name. -/
def monthName : Nat → String
  | 1 => "January" | 2 => "February" | 3 => "March" | 4 => "April"
  | 5 => "May" | 6 => "June" | 7 => "July" | 8 => "August"
  | 9 => "September" | 10 => "October" | 11 => "November" | 12 => "December"
  | _ => ""

/-- Day of week by Sakamoto's method, 0 = Sunday. -/
def dayOfWeek (y m d : Nat) : Nat :=
  let y' := if m < 3 then y - 1 else y
  let t := [0, 3, 2, 5, 0, 3, 5, 1, 4, 6, 2, 4]
  (y' + y' / 4 - y' / 100 + y' / 400 + t.getD (m - 1) 0 + d) % 7

/-- `%A`: the full weekday name. -/
def weekdayName (w : Nat) : String :=
  ["Sunday", "Monday", "Tuesday", "Wednesday", "Thursday", "Friday", "Saturday"].getD w ""

/-- `%I`: the hour on the 12-hour clock. -/
def hour12 (h : Nat) : Nat := if h % 12 = 0 then 12 else h % 12

/-- `%p`. -/
def ampm (h : Nat) : String := if h < 12 then "AM" else "PM"

/-- `slot_time.strftime("%A, %B %d at %I:%M %p")`. -/
def fmtFull (dt : PyDateTime) : String :=
  weekdayName (dayOfWeek dt.year dt.month dt.day) ++ ", " ++ monthName dt.month ++ " " ++
    pad2 dt.day ++ " at " ++ pad2 (hour12 dt.hour) ++ ":" ++ pad2 dt.minute ++ " " ++
    ampm dt.hour

/-- `slot_time.strftime("%Y-%m-%d")`. -/
def fmtDate (dt : PyDateTime) : String :=
  pad4 dt.year ++ "-" ++ pad2 dt.month ++ "-" ++ pad2 dt.day

/-- `slot_time.strftime("%I:%M %p")`. -/
def fmtTime (dt : PyDateTime) : String :=
  pad2 (hour12 dt.hour) ++ ":" ++ pad2 dt.minute ++ " " ++ ampm dt.hour

/-- One iteration of the slot-formatting loop: the formatted record for a
parseable slot string, `none` (the `except: pass` omission) otherwise. -/
def formatSlot (slot : JVal) : Option JVal :=
  match slot with
  | .str s =>
    match parseIso (pyReplaceCharStr s 'Z' "+00:00") with
    | some dt =>
      some (.obj [("datetime", .str s), ("formatted", .str (fmtFull dt)),
                  ("date", .str (fmtDate dt)), ("time", .str (fmtTime dt))])
    | none => none
  | _ => none

/-- The whole loop `for slot in available_slots[:5]: ...`. -/
def formatSlots (slots : List JVal) : List JVal :=
  (slots.take 5).filterMap formatSlot

/-! ## The webhook handler (`src/main.py` `retell_inbound_webhook`, lines 670-874)

The handler is a function of its configuration and collaborators (`Env`),
the store, and the request fields it reads.  Its result records the
response, the background tasks scheduled on it (in order), how many calls
each upstream received, and the store afterwards. -/

/-- Module configuration and collaborators as set up at startup
(`src/main.py` lines 380-426): which optional clients exist, the upstream
oracles behind them, and the request-wide clock readings. -/
structure Env where
  context_cache : Bool
  cached_memory_client : Bool
  zep_client : Bool
  supabase_client : Bool
  cached_calendar_client : Bool
  ghl_calendar_id : String
  ghl_timezone : String
  zep : String → Option String → Except Unit JVal
  ghl : String → String → String → String → Except Unit JVal
  get_contact_fast : String → Except Unit JVal
  system_prompt : String
  now : Nat
  now_iso : String
  today : String
  week_later : String

/-- A unit of deferred work handed to `background_tasks.add_task`. -/
inductive BgTask where
  | refresh_context_cache (user_id : String) (call_id : Option String)
  | set_context_task (phone : String) (context : Dict)
  | update_all_systems (call_id : Option String) (phone : String) (user_id : String)

/-- What the handler produces: an HTTP error status or the
`dynamic_variables` payload, the scheduled background tasks, the upstream
call counts, and the store afterwards. -/
structure HandlerOut where
  response : Except Nat Dict
  tasks : List BgTask
  zepCalls : Nat
  ghlCalls : Nat
  contactCalls : Nat
  store : RedisState

/-- Lines 786-840: processing of the gathered results into `dynamic_vars`,
starting from the dict already holding `call_id`, `customer_phone` and
`timestamp`.  `zep_memory`, `contact` and `slots_result` are the values the
extraction step produced (exceptions already replaced by `{}`/None). -/
def processResults (dv0 : Dict) (zep_memory contact slots_result : JVal)
    (system_prompt : String) : Dict :=
  let facts := jGetD zep_memory "facts" (.arr [])
  let dv1 :=
    if jTruthy facts then
      dictSet (dictSet (dictSet dv0 "customer_facts" facts)
        "customer_known" (.str "yes"))
        "customer_summary" (.str ("Customer has " ++ toString (jLen facts) ++ " known facts"))
    else
      dictSet (dictSet dv0 "customer_known" (.str "no"))
        "customer_summary" (.str "New customer, no previous interactions")
  let dv2 :=
    if jTruthy contact then
      dictSet (dictSet dv1 "customer_name" (jGetD contact "name" .null))
        "total_calls" (jGetD contact "total_calls" (.num 0))
    else dv1
  let dv3 :=
    if jTruthy slots_result && !jHas slots_result "error" then
      let formatted_slots := formatSlots (jGetList slots_result "slots")
      dictSet (dictSet (dictSet dv2 "available_slots" (.arr formatted_slots))
        "has_availability" (.bool (decide (formatted_slots.length > 0))))
        "slots_count" (.num formatted_slots.length)
    else
      dictSet (dictSet dv2 "has_availability" (.bool false)) "available_slots" (.arr [])
  dictSet dv3 "system_prompt" (.str system_prompt)

/-- `retell_inbound_webhook`.  The three sub-fetches are started together
and gathered with `return_exceptions=True`; since they touch disjoint key
families their store effects are threaded memory-then-slots.  Note the
extraction indices: `results` is the *compacted* list of dispatched tasks,
yet `zep_memory`, `contact` and `slots_result` are read from the fixed
positions 0, 1 and 2 exactly as the code does. -/
def retell_inbound_webhook (env : Env) (st : RedisState)
    (call_id : Option String) (from_number : Option String) : HandlerOut :=
  match from_number with
  | none => ⟨.error 400, [], 0, 0, 0, st⟩
  | some fn =>
    if fn.isEmpty then ⟨.error 400, [], 0, 0, 0, st⟩
    else
      let user_id := normalize_phone fn
      let cached_context : Option JVal :=
        if env.context_cache then get_context st env.now user_id else none
      if (cached_context.map jTruthy).getD false then
        match cached_context with
        | some (.obj fs) =>
          let ctx := dictSet (dictSet (dictSet fs
            "call_id" (jOfOptStr call_id))
            "customer_phone" (.str fn))
            "timestamp" (.str env.now_iso)
          ⟨.ok ctx, [.refresh_context_cache user_id call_id], 0, 0, 0, st⟩
        | _ =>
          -- a truthy non-dict cached value would fail item assignment
          ⟨.error 500, [], 0, 0, 0, st⟩
      else
        let dv0 : Dict :=
          [("call_id", jOfOptStr call_id), ("customer_phone", .str fn),
           ("timestamp", .str env.now_iso)]
        let memStep : Option (Except Unit JVal × RedisState × Nat) :=
          if env.cached_memory_client then
            let r := get_memory env.zep st env.now user_id call_id false
            some (r.result, r.store, r.upstreamCalls)
          else if env.zep_client then some (env.zep user_id call_id, st, 1)
          else none
        let st1 := match memStep with | some (_, s, _) => s | none => st
        let zepCalls := match memStep with | some (_, _, n) => n | none => 0
        let contactStep : Option (Except Unit JVal) :=
          if env.supabase_client then some (env.get_contact_fast user_id) else none
        let contactCalls := if env.supabase_client then 1 else 0
        let calConfigured := env.cached_calendar_client && !env.ghl_calendar_id.isEmpty
        let slotsStep : Option (Except Unit JVal × RedisState × Nat) :=
          if calConfigured then
            let r := get_available_slots env.ghl st1 env.now env.ghl_calendar_id
              env.today env.week_later env.ghl_timezone false
            some (r.result, r.store, r.upstreamCalls)
          else none
        let st2 := match slotsStep with | some (_, s, _) => s | none => st1
        let ghlCalls := match slotsStep with | some (_, _, n) => n | none => 0
        let results : List (Except Unit JVal) :=
          (match memStep with | some (r, _, _) => [r] | none => []) ++
          (match contactStep with | some r => [r] | none => []) ++
          (match slotsStep with | some (r, _, _) => [r] | none => [])
        let zep_memory : JVal :=
          if memStep.isSome && decide (results.length > 0) then
            match results.getD 0 (.ok .null) with
            | .error _ => .obj []
            | .ok v => v
          else .obj []
        let contact : JVal :=
          if contactStep.isSome && decide (results.length > 1) then
            match results.getD 1 (.ok .null) with
            | .error _ => .null
            | .ok v => v
          else .null
        let slots_result : JVal :=
          if slotsStep.isSome && decide (results.length > 2) then
            match results.getD 2 (.ok .null) with
            | .error _ => .null
            | .ok v => v
          else .null
        let dynamic_vars := processResults dv0 zep_memory contact slots_result env.system_prompt
        let tasks :=
          (if env.context_cache then [BgTask.set_context_task user_id dynamic_vars] else []) ++
          [BgTask.update_all_systems call_id fn user_id]
        ⟨.ok dynamic_vars, tasks, zepCalls, ghlCalls, contactCalls, st2⟩

/-! ## The background refresh (`src/main.py` `refresh_context_cache`, lines 535-604)

The refresh re-derives the context with `force_refresh=True` on the
sub-wrappers.  In contrast with the handler's slow path it is wrapped in a
single try/except: an exception from any sub-fetch aborts the whole
refresh and nothing is written. -/

/-- The dict the refresh starts from (lines 550-554). -/
def refreshInitVars : Dict :=
  [("customer_known", .str "unknown"), ("available_slots", .arr []),
   ("has_availability", .bool false)]

/-- Lines 558-563: the memory fields, added only when facts are truthy. -/
def refreshMemVars (dv : Dict) (memory : JVal) : Dict :=
  let facts := jGetD memory "facts" (.arr [])
  if jTruthy facts then
    dictSet (dictSet (dictSet dv "customer_facts" facts)
      "customer_known" (.str "yes"))
      "customer_summary" (.str ("Customer has " ++ toString (jLen facts) ++ " known facts"))
  else dv

/-- Lines 567-570: the contact fields, added only when a contact came back. -/
def refreshContactVars (dv : Dict) (contact : JVal) : Dict :=
  if jTruthy contact then
    dictSet (dictSet dv "customer_name" (jGetD contact "name" .null))
      "total_calls" (jGetD contact "total_calls" (.num 0))
  else dv

/-- Lines 580-596: the slot fields, added only on an error-free result
(no `slots_count`, unlike the handler's slow path). -/
def refreshSlotsVars (dv : Dict) (slots_result : JVal) : Dict :=
  if jTruthy slots_result && !jHas slots_result "error" then
    let formatted_slots := formatSlots (jGetList slots_result "slots")
    dictSet (dictSet dv "available_slots" (.arr formatted_slots))
      "has_availability" (.bool (decide (formatted_slots.length > 0)))
  else dv

/-- The whole variable assembly of the refresh, for a fixed triple of
sub-source results (all three clients configured). -/
def refreshAssembleVars (memory contact slots_result : JVal) : Dict :=
  refreshSlotsVars (refreshContactVars (refreshMemVars refreshInitVars memory) contact)
    slots_result

/-- What one refresh run produced: the store afterwards, the upstream call
counts, and the payload handed to `set_context` (none when the refresh
aborted on an exception or no context cache is configured). -/
structure RefreshOut where
  store : RedisState
  zepCalls : Nat
  ghlCalls : Nat
  contactCalls : Nat
  written : Option Dict

/-- Final stage of the refresh: the `set_context` write (line 600). -/
def refreshWrite (env : Env) (st : RedisState) (zepC ghlC cc : Nat) (dv : Dict)
    (user_id : String) : RefreshOut :=
  if env.context_cache then
    ⟨set_context st env.now user_id (.obj dv), zepC, ghlC, cc, some dv⟩
  else ⟨st, zepC, ghlC, cc, none⟩

/-- Slot stage of the refresh (lines 573-596). -/
def refreshSlotsStage (env : Env) (st : RedisState) (zepC cc : Nat) (dv : Dict)
    (user_id : String) : RefreshOut :=
  if env.cached_calendar_client && !env.ghl_calendar_id.isEmpty then
    let r := get_available_slots env.ghl st env.now env.ghl_calendar_id
      env.today env.week_later env.ghl_timezone true
    match r.result with
    | .error _ => ⟨r.store, zepC, r.upstreamCalls, cc, none⟩
    | .ok slots_result =>
      refreshWrite env r.store zepC r.upstreamCalls cc (refreshSlotsVars dv slots_result) user_id
  else refreshWrite env st zepC 0 cc dv user_id

/-- Contact stage of the refresh (lines 566-570). -/
def refreshContactStage (env : Env) (st : RedisState) (zepC : Nat) (dv : Dict)
    (user_id : String) : RefreshOut :=
  if env.supabase_client then
    match env.get_contact_fast user_id with
    | .error _ => ⟨st, zepC, 0, 1, none⟩
    | .ok contact =>
      refreshSlotsStage env st zepC 1 (refreshContactVars dv contact) user_id
  else refreshSlotsStage env st zepC 0 dv user_id

/-- `refresh_context_cache(user_id, call_id)`. -/
def refresh_context_cache (env : Env) (st : RedisState)
    (user_id : String) (call_id : Option String) : RefreshOut :=
  if env.cached_memory_client then
    let r := get_memory env.zep st env.now user_id call_id true
    match r.result with
    | .error _ => ⟨r.store, r.upstreamCalls, 0, 0, none⟩
    | .ok memory =>
      refreshContactStage env r.store r.upstreamCalls
        (refreshMemVars refreshInitVars memory) user_id
  else refreshContactStage env st 0 refreshInitVars user_id

/-! ## Dictionary and normalization lemmas -/

theorem dictGet_dictSet_self (d : Dict) (k : String) (v : JVal) :
    dictGet (dictSet d k v) k = some v := by
  induction d with
  | nil => simp [dictSet, dictGet]
  | cons p rest ih =>
    obtain ⟨k', v'⟩ := p
    by_cases h : k' = k
    · simp [dictSet, dictGet, h]
    · simp [dictSet, dictGet, h, ih]

theorem dictGet_dictSet_ne (d : Dict) {k k' : String} (v : JVal) (h : k ≠ k') :
    dictGet (dictSet d k v) k' = dictGet d k' := by
  induction d with
  | nil => simp [dictSet, dictGet, h]
  | cons p rest ih =>
    obtain ⟨k'', v''⟩ := p
    by_cases h2 : k'' = k
    · subst h2
      simp [dictSet, dictGet, h]
    · simp [dictSet, dictGet, h2, ih]

theorem pyRemoveChar_data (s : String) (c : Char) :
    (pyRemoveChar s c).data = s.data.filter (fun a => a != c) := rfl

theorem pyRemoveChar_eq_self {s : String} {c : Char}
    (h : ∀ a ∈ s.data, a ≠ c) : pyRemoveChar s c = s := by
  apply String.ext
  rw [pyRemoveChar_data]
  exact List.filter_eq_self.mpr (fun a ha => by simpa using h a ha)

theorem mem_pyRemoveChar {a c : Char} {s : String}
    (h : a ∈ (pyRemoveChar s c).data) : a ∈ s.data ∧ a ≠ c := by
  rw [pyRemoveChar_data] at h
  have h2 := List.mem_filter.mp h
  exact ⟨h2.1, by simpa using h2.2⟩

/-! ## Glob-matching lemmas -/

theorem dropStars_noStar_append (p : List Char) (hp : ∀ c ∈ p, c ≠ '*') :
    (dropStars (p ++ ['*'])).isEmpty = p.isEmpty := by
  cases p with
  | nil => rfl
  | cons a rest =>
    have ha := hp a (List.mem_cons_self a rest)
    simp [dropStars, ha]

theorem redisGlobAux_litPrefixStar (p s : List Char) (fuel : Nat)
    (hp : ∀ c ∈ p, c ≠ '*' ∧ c ≠ '?' ∧ c ≠ '[' ∧ c ≠ '\\')
    (hne : p ≠ []) (hf : p.length + s.length + 2 ≤ fuel) :
    redisGlobAux fuel (p ++ ['*']) s = p.isPrefixOf s := by
  induction p generalizing s fuel with
  | nil => exact absurd rfl hne
  | cons a p ih =>
    obtain ⟨f, rfl⟩ : ∃ f, fuel = f + 1 := ⟨fuel - 1, by omega⟩
    have ha := hp a (List.mem_cons_self a p)
    cases s with
    | nil =>
      simp [redisGlobAux, List.isPrefixOf]
    | cons c cs =>
      simp only [redisGlobAux, List.cons_append]
      rw [if_neg ha.1]
      simp only [stepOne]
      rw [if_neg ha.2.1, if_neg ha.2.2.1, if_neg ha.2.2.2]
      by_cases hac : a = c
      · subst hac
        rw [if_pos rfl]
        cases cs with
        | nil =>
          cases p with
          | nil => simp [dropStars, List.isPrefixOf]
          | cons b p' =>
            have hb : b ≠ '*' := (hp b (List.mem_cons_of_mem a (List.mem_cons_self b p'))).1
            simp [dropStars, hb, List.isPrefixOf]
        | cons d ds =>
          cases p with
          | nil =>
            obtain ⟨g, rfl⟩ : ∃ g, f = g + 1 := ⟨f - 1, by omega⟩
            simp [redisGlobAux, dropStars, List.isPrefixOf]
          | cons b p' =>
            have hf' : (b :: p').length + (d :: ds).length + 2 ≤ f := by
              simp only [List.length_cons] at hf ⊢; omega
            have hih := ih (d :: ds) f
              (fun e he => hp e (List.mem_cons_of_mem a he)) (by simp) hf'
            exact hih.trans (by simp [List.isPrefixOf])
      · rw [if_neg hac]
        have hba : (a == c) = false := by simp [hac]
        simp [List.isPrefixOf, hba]

/-- A calendar id free of the characters the Redis glob pattern
interprets: `*`, `?`, `[` and `\`. -/
def noGlobMeta (s : String) : Bool :=
  s.data.all (fun c => c != '*' && c != '?' && c != '[' && c != '\\')

/-- A key starting with `memory:` differs from any key whose first
character is `s` (such as a `slots:` key). -/
theorem memory_key_beq_eq_false (u k : String) (hk : k.data.head? = some 's') :
    (("memory:" ++ u) == k) = false := by
  apply beq_eq_false_iff_ne.mpr
  intro h
  have h2 := congrArg (fun t => t.data.head?) h
  simp only [String.data_append] at h2
  have h3 : some 'm' = k.data.head? := h2
  rw [hk] at h3
  simp at h3

/-! ## Concrete fixtures used by the scenario theorems -/

/-- Recognizer for the background-refresh task among scheduled tasks. -/
def isRefreshTask : BgTask → Bool
  | .refresh_context_cache _ _ => true
  | _ => false

/-- A concrete environment: configuration flags, the calendar id, and one
fixed response per upstream collaborator. -/
def mkEnv (cc mem zepc sup cal : Bool) (cid : String)
    (m c s : Except Unit JVal) : Env :=
  { context_cache := cc, cached_memory_client := mem, zep_client := zepc,
    supabase_client := sup, cached_calendar_client := cal,
    ghl_calendar_id := cid, ghl_timezone := "America/New_York",
    zep := fun _ _ => m, ghl := fun _ _ _ _ => s,
    get_contact_fast := fun _ => c,
    system_prompt := "Hi! Thanks for calling. How can I help you today?",
    now := 0, now_iso := "2024-01-15T10:00:00", today := "2024-01-15",
    week_later := "2024-01-22" }

/-- The fully-configured deployment: all clients present, calendar `cal1`,
and the given sub-source results. -/
def envAll (m c s : JVal) : Env :=
  mkEnv true true true true true "cal1" (.ok m) (.ok c) (.ok s)

/-- A memory upstream whose result depends on the session id. -/
def zepSess : String → Option String → Except Unit JVal :=
  fun _ s => .ok (.obj [("facts", .arr (if s = some "a" then [.str "f"] else []))])

/-- The dict the slow path starts from under `envAll`'s clock. -/
def slowDv0 (cid fn : String) : Dict :=
  [("call_id", .str cid), ("customer_phone", .str fn),
   ("timestamp", .str "2024-01-15T10:00:00")]

/-- The prompt text `envAll` serves. -/
def slowPrompt : String := "Hi! Thanks for calling. How can I help you today?"

/-- A nonempty memory result. -/
def vFacts : JVal := .obj [("facts", .arr [.str "f"])]

/-- A memory upstream with a fixed nonempty result. -/
def zepConst : String → Option String → Except Unit JVal := fun _ _ => .ok vFacts

/-- A calendar upstream with a fixed empty slot list. -/
def ghlConst : String → String → String → String → Except Unit JVal :=
  fun _ _ _ _ => .ok (.obj [("slots", .arr [])])

/-- A warm cached context payload, as the spec's warm-cache scenario seeds it. -/
def c1cached : Dict := [("customer_known", .str "no")]

/-- The environment of the cold-cache scenario: memory knows one fact, no
contact record, one available slot. -/
def envC7 : Env :=
  envAll (.obj [("facts", .arr [.str "likes blue"])]) .null
    (.obj [("slots", .arr [.str "2024-01-15T14:00:00Z"])])

/-- The formatted record the slot `2024-01-15T14:00:00Z` yields. -/
def c7slotEntry : JVal :=
  .obj [("datetime", .str "2024-01-15T14:00:00Z"),
        ("formatted", .str "Monday, January 15 at 02:00 PM"),
        ("date", .str "2024-01-15"), ("time", .str "02:00 PM")]

/-- The full payload the cold-cache scenario produces. -/
def c7payload : Dict :=
  [("call_id", .str "c1"), ("customer_phone", .str "+15551234567"),
   ("timestamp", .str "2024-01-15T10:00:00"),
   ("customer_facts", .arr [.str "likes blue"]),
   ("customer_known", .str "yes"),
   ("customer_summary", .str "Customer has 1 known facts"),
   ("available_slots", .arr [c7slotEntry]),
   ("has_availability", .bool true), ("slots_count", .num 1),
   ("system_prompt", .str slowPrompt)]

/-- A deployment without the memory client (`ZEP_API_KEY` unset, so neither
`cached_memory_client` nor `zep_client` exists) but with Supabase and the
calendar configured; the contact and slot upstreams both succeed. -/
def envC6 : Env :=
  mkEnv true false false true true "cal1" (.ok .null)
    (.ok (.obj [("name", .str "Ada"), ("total_calls", .num 3)]))
    (.ok (.obj [("slots", .arr [.str "2024-01-15T14:00:00Z"])]))

/-- A store seeded with three date-range keys of calendar `cal1` plus one
key of another namespace. -/
def stSeed : RedisState :=
  ⟨false, [⟨"slots:cal1:2024-01-15:2024-01-22:tz", .obj [], 180⟩,
           ⟨"slots:cal1:2024-01-16:2024-01-23:tz", .obj [], 180⟩,
           ⟨"slots:cal1:2024-01-17:2024-01-24:tz", .obj [], 180⟩,
           ⟨"memory:u", vFacts, 300⟩]⟩

/-! ## C1 — warm full-context cache fast path -/

/-- C1 (amended): for every request whose identity has a warm full-context
cache entry holding a *nonempty* payload, the handler returns that cached
payload verbatim plus the injected request-specific fields (`call_id`,
`customer_phone`, `timestamp`), makes no upstream call, leaves the store
untouched, and schedules exactly one background-refresh task and nothing
else. -/
theorem c1_warm_nonempty_fast_path
    (env : Env) (st : RedisState) (call_id : Option String) (fn : String) (fs : Dict)
    (hcc : env.context_cache = true)
    (hfn : fn.isEmpty = false)
    (hwarm : redisGet st env.now (context_cache_key (normalize_phone fn)) =
      .ok (some (.obj fs)))
    (hne : fs ≠ []) :
    ∃ dv,
      retell_inbound_webhook env st call_id (some fn) =
        ⟨.ok dv, [.refresh_context_cache (normalize_phone fn) call_id], 0, 0, 0, st⟩ ∧
      dictGet dv "call_id" = some (jOfOptStr call_id) ∧
      dictGet dv "customer_phone" = some (.str fn) ∧
      dictGet dv "timestamp" = some (.str env.now_iso) ∧
      (∀ k, k ≠ "call_id" → k ≠ "customer_phone" → k ≠ "timestamp" →
        dictGet dv k = dictGet fs k) := by
  have hget : get_context st env.now (normalize_phone fn) = some (.obj fs) := by
    simp [get_context, hwarm]
  have htr : jTruthy (.obj fs) = true := by
    simp [jTruthy, hne]
  refine ⟨dictSet (dictSet (dictSet fs "call_id" (jOfOptStr call_id))
      "customer_phone" (.str fn)) "timestamp" (.str env.now_iso), ?_, ?_, ?_, ?_, ?_⟩
  · rw [retell_inbound_webhook]
    simp only [hfn, hcc, hget, Bool.false_eq_true, if_false, if_true]
    rw [if_pos (show (Option.map jTruthy (some (JVal.obj fs))).getD false = true by
      simp [htr])]
  · rw [dictGet_dictSet_ne _ _ (by decide), dictGet_dictSet_ne _ _ (by decide),
      dictGet_dictSet_self]
  · rw [dictGet_dictSet_ne _ _ (by decide), dictGet_dictSet_self]
  · rw [dictGet_dictSet_self]
  · intro k h1 h2 h3
    rw [dictGet_dictSet_ne _ _ (Ne.symm h3), dictGet_dictSet_ne _ _ (Ne.symm h2),
      dictGet_dictSet_ne _ _ (Ne.symm h1)]

/-- C1 witness: the warm-cache scenario of the spec
(`{customer_known: "no"}` cached for `15551234567`) run through
`c1_warm_nonempty_fast_path` at its concrete inputs. -/
theorem c1_witness :
    ∃ dv,
      retell_inbound_webhook (envAll .null .null .null)
          ⟨false, [⟨"context:15551234567", .obj c1cached, 100⟩]⟩
          (some "c1") (some "15551234567") =
        ⟨.ok dv, [.refresh_context_cache (normalize_phone "15551234567") (some "c1")],
          0, 0, 0, ⟨false, [⟨"context:15551234567", .obj c1cached, 100⟩]⟩⟩ ∧
      dictGet dv "call_id" = some (jOfOptStr (some "c1")) ∧
      dictGet dv "customer_phone" = some (.str "15551234567") ∧
      dictGet dv "timestamp" = some (.str (envAll .null .null .null).now_iso) ∧
      (∀ k, k ≠ "call_id" → k ≠ "customer_phone" → k ≠ "timestamp" →
        dictGet dv k = dictGet c1cached k) :=
  c1_warm_nonempty_fast_path (envAll .null .null .null)
    ⟨false, [⟨"context:15551234567", .obj c1cached, 100⟩]⟩ (some "c1") "15551234567"
    c1cached rfl rfl rfl (by simp [c1cached])

/-- C1 counterexample: the identity `15551234567` has a warm full-context
cache entry (the empty object `{}`), yet the handler takes the slow path —
it makes an upstream (Zep) call and schedules no background-refresh task —
because Python's truthiness test treats the deserialized `{}` as a miss. -/
theorem c1_counterexample :
    redisGet ⟨false, [⟨"context:15551234567", .obj [], 100⟩]⟩ 0
      (context_cache_key "15551234567") = .ok (some (.obj [])) ∧
    (retell_inbound_webhook (envAll (.obj [("facts", .arr [])]) .null .null)
        ⟨false, [⟨"context:15551234567", .obj [], 100⟩]⟩ (some "c1")
        (some "15551234567")).tasks.countP isRefreshTask = 0 ∧
    (retell_inbound_webhook (envAll (.obj [("facts", .arr [])]) .null .null)
        ⟨false, [⟨"context:15551234567", .obj [], 100⟩]⟩ (some "c1")
        (some "15551234567")).zepCalls = 1 := ⟨rfl, rfl, rfl⟩

/-! ## C2 — read-through hit before TTL expiry -/

/-- C2: for every identity and both read-through wrappers (memory, slots),
a fetch performed on the store state a `setex` of the wrapper's key
produced, at any time before that entry's TTL expires and with
`force_refresh = false`, returns the cached value, makes zero upstream
calls, and leaves the store unchanged. -/
theorem c2_fetch_after_set_hits
    (st : RedisState) (h : st.failing = false)
    (zep : String → Option String → Except Unit JVal)
    (ghl : String → String → String → String → Except Unit JVal)
    (u : String) (sess : Option String) (v w : JVal)
    (cal sd ed tz : String) (t0 nowM nowS : Nat) (stM stS : RedisState)
    (hsetM : redisSetex st t0 (memory_cache_key u) memoryCacheTtl v = .ok stM)
    (hsetS : redisSetex st t0 (slots_cache_key cal sd ed tz) slotsCacheTtl w = .ok stS)
    (hM : nowM < t0 + memoryCacheTtl) (hS : nowS < t0 + slotsCacheTtl) :
    get_memory zep stM nowM u sess false = ⟨.ok v, stM, 0⟩ ∧
    get_available_slots ghl stS nowS cal sd ed tz false = ⟨.ok w, stS, 0⟩ := by
  simp only [redisSetex, h, Bool.false_eq_true, if_false, Except.ok.injEq] at hsetM hsetS
  subst hsetM
  subst hsetS
  constructor
  · simp [get_memory, redisGet, h, List.find?, hM]
  · simp [get_available_slots, redisGet, h, List.find?, hS]

/-- C2 witness: both wrappers at concrete warm stores (entry written at
time 0, fetched at time 5, well inside both TTLs). -/
theorem c2_witness :
    get_memory zepConst ⟨false, [⟨memory_cache_key "u", vFacts, 300⟩]⟩ 5 "u" none false =
      ⟨.ok vFacts, ⟨false, [⟨memory_cache_key "u", vFacts, 300⟩]⟩, 0⟩ ∧
    get_available_slots ghlConst
        ⟨false, [⟨slots_cache_key "cal1" "a" "b" "tz", .obj [], 180⟩]⟩
        5 "cal1" "a" "b" "tz" false =
      ⟨.ok (.obj []), ⟨false, [⟨slots_cache_key "cal1" "a" "b" "tz", .obj [], 180⟩]⟩, 0⟩ :=
  c2_fetch_after_set_hits ⟨false, []⟩ rfl zepConst ghlConst "u" none vFacts (.obj [])
    "cal1" "a" "b" "tz" 0 5 5 _ _ rfl rfl (by decide) (by decide)

/-! ## C3 — cache keys vs the parameters that affect the result -/

/-- C3 (amended): every cache key is a deterministic function of its
namespace and its parameters — the slot key of calendar, date range and
timezone, the memory key of the user id *alone*.  The memory key omits
`session_id` even though the upstream result can depend on it, so two
`get_memory` calls that differ only in session share one key: after any
fetch that returned `m` into a cold, healthy cache, a fetch for the same
user with *any other* session id (before TTL expiry) is served `m` from
the cache with zero upstream calls. -/
theorem c3_memory_key_ignores_session
    (zep : String → Option String → Except Unit JVal)
    (st : RedisState) (now now' : Nat) (u : String)
    (s1 s2 : Option String) (m : JVal) (cal sd ed tz : String)
    (hfail : st.failing = false)
    (hcold : redisGet st now (memory_cache_key u) = .ok none)
    (hfetch : (get_memory zep st now u s1 false).result = .ok m)
    (hnow : now' < now + memoryCacheTtl) :
    memory_cache_key u = "memory:" ++ u ∧
    slots_cache_key cal sd ed tz =
      "slots:" ++ cal ++ ":" ++ sd ++ ":" ++ ed ++ ":" ++ tz ∧
    get_memory zep (get_memory zep st now u s1 false).store now' u s2 false =
      ⟨.ok m, (get_memory zep st now u s1 false).store, 0⟩ := by
  refine ⟨rfl, rfl, ?_⟩
  rcases hz : zep u s1 with e | mem
  · simp [get_memory, hcold, hz] at hfetch
  · simp only [get_memory, hcold, hz] at hfetch ⊢
    simp at hfetch
    subst hfetch
    simp [redisSetex, hfail, redisGet, List.find?, hnow]

/-- C3 witness: `c3_memory_key_ignores_session` at the session-sensitive
upstream `zepSess`, user `u`, sessions `a` then `b`, on a cold store. -/
theorem c3_witness :
    memory_cache_key "u" = "memory:" ++ "u" ∧
    slots_cache_key "cal1" "a" "b" "tz" =
      "slots:" ++ "cal1" ++ ":" ++ "a" ++ ":" ++ "b" ++ ":" ++ "tz" ∧
    get_memory zepSess (get_memory zepSess ⟨false, []⟩ 0 "u" (some "a") false).store
        0 "u" (some "b") false =
      ⟨.ok (.obj [("facts", .arr [.str "f"])]),
        (get_memory zepSess ⟨false, []⟩ 0 "u" (some "a") false).store, 0⟩ :=
  c3_memory_key_ignores_session zepSess ⟨false, []⟩ 0 0 "u" (some "a") (some "b")
    (.obj [("facts", .arr [.str "f"])]) "cal1" "a" "b" "tz" rfl rfl rfl (by decide)

/-- C3 counterexample: `zepSess` gives different upstream results for
sessions `a` and `b` of the same user, yet the second `get_memory` call
(session `b`) returns the cached session-`a` result with zero upstream
calls — the two calls used the same cache key, not distinct ones. -/
theorem c3_counterexample :
    ((get_memory zepSess
        (get_memory zepSess ⟨false, []⟩ 0 "15551234567" (some "a") false).store
        0 "15551234567" (some "b") false).result =
      (get_memory zepSess ⟨false, []⟩ 0 "15551234567" (some "a") false).result ∧
     (get_memory zepSess
        (get_memory zepSess ⟨false, []⟩ 0 "15551234567" (some "a") false).store
        0 "15551234567" (some "b") false).upstreamCalls = 0) ∧
    zepSess "15551234567" (some "b") ≠ zepSess "15551234567" (some "a") := by
  refine ⟨⟨rfl, rfl⟩, ?_⟩
  simp [zepSess]

/-! ## C4 — background refresh vs slow-path assembly -/

/-- C4 (amended): from the same fixed sub-source results on a cold healthy
store, the payload the background refresh writes into the full-context
cache agrees with the payload the slow path builds and caches on every
field both derive from the sub-sources — `available_slots`,
`has_availability`, the contact fields, and (when facts are nonempty) the
three memory fields — but the two payloads are *not* equal: with empty
facts the refresh leaves `customer_known = "unknown"` and no
`customer_summary` while the slow path writes `"no"` plus a summary, and
the slow path additionally caches `call_id`, `system_prompt` and
`slots_count`, which the refresh payload never contains. -/
theorem c4_refresh_vs_slow_path
    (m c s : JVal) (cid fn : String) (hfn : fn.isEmpty = false) :
    (refresh_context_cache (envAll m c s) ⟨false, []⟩ (normalize_phone fn)
        (some cid)).written = some (refreshAssembleVars m c s) ∧
    (retell_inbound_webhook (envAll m c s) ⟨false, []⟩ (some cid) (some fn)).tasks =
      [.set_context_task (normalize_phone fn)
         (processResults (slowDv0 cid fn) m c s slowPrompt),
       .update_all_systems (some cid) fn (normalize_phone fn)] ∧
    (dictGet (refreshAssembleVars m c s) "available_slots" =
        dictGet (processResults (slowDv0 cid fn) m c s slowPrompt) "available_slots" ∧
     dictGet (refreshAssembleVars m c s) "has_availability" =
        dictGet (processResults (slowDv0 cid fn) m c s slowPrompt) "has_availability" ∧
     dictGet (refreshAssembleVars m c s) "customer_name" =
        dictGet (processResults (slowDv0 cid fn) m c s slowPrompt) "customer_name" ∧
     dictGet (refreshAssembleVars m c s) "total_calls" =
        dictGet (processResults (slowDv0 cid fn) m c s slowPrompt) "total_calls") ∧
    (jTruthy (jGetD m "facts" (.arr [])) = true →
      dictGet (refreshAssembleVars m c s) "customer_facts" =
        dictGet (processResults (slowDv0 cid fn) m c s slowPrompt) "customer_facts" ∧
      dictGet (refreshAssembleVars m c s) "customer_known" =
        dictGet (processResults (slowDv0 cid fn) m c s slowPrompt) "customer_known" ∧
      dictGet (refreshAssembleVars m c s) "customer_summary" =
        dictGet (processResults (slowDv0 cid fn) m c s slowPrompt) "customer_summary") ∧
    (jTruthy (jGetD m "facts" (.arr [])) = false →
      dictGet (refreshAssembleVars m c s) "customer_known" = some (.str "unknown") ∧
      dictGet (processResults (slowDv0 cid fn) m c s slowPrompt) "customer_known" =
        some (.str "no") ∧
      dictGet (refreshAssembleVars m c s) "customer_summary" = none ∧
      dictGet (processResults (slowDv0 cid fn) m c s slowPrompt) "customer_summary" =
        some (.str "New customer, no previous interactions")) ∧
    (dictGet (refreshAssembleVars m c s) "call_id" = none ∧
     dictGet (processResults (slowDv0 cid fn) m c s slowPrompt) "call_id" =
        some (.str cid) ∧
     dictGet (refreshAssembleVars m c s) "system_prompt" = none ∧
     dictGet (processResults (slowDv0 cid fn) m c s slowPrompt) "system_prompt" =
        some (.str slowPrompt) ∧
     dictGet (refreshAssembleVars m c s) "slots_count" = none) := by
  refine ⟨rfl, ?_, ?_, ?_, ?_, ?_⟩
  · have hbeq := memory_key_beq_eq_false (normalize_phone fn)
      "slots:cal1:2024-01-15:2024-01-22:America/New_York" rfl
    rw [retell_inbound_webhook]
    simp only [hfn, Bool.false_eq_true, if_false, if_true, envAll, mkEnv, get_context,
      get_memory, get_available_slots, redisGet, redisSetex, memory_cache_key,
      slots_cache_key, List.find?, hbeq]
    simp [hbeq, List.find?, jOfOptStr, slowDv0, slowPrompt,
      show "cal1".isEmpty = false from rfl]
  · by_cases hf : jTruthy (jGetD m "facts" (.arr [])) = true <;>
    by_cases hc : jTruthy c = true <;>
    by_cases hs : (jTruthy s && !jHas s "error") = true <;>
    refine ⟨?_, ?_, ?_, ?_⟩ <;>
    simp [processResults, refreshAssembleVars, refreshMemVars, refreshContactVars,
      refreshSlotsVars, refreshInitVars, slowDv0, hf, hc, hs,
      dictGet_dictSet_self, dictGet_dictSet_ne, dictGet]
  · intro hf
    by_cases hc : jTruthy c = true <;>
    by_cases hs : (jTruthy s && !jHas s "error") = true <;>
    refine ⟨?_, ?_, ?_⟩ <;>
    simp [processResults, refreshAssembleVars, refreshMemVars, refreshContactVars,
      refreshSlotsVars, refreshInitVars, slowDv0, hf, hc, hs,
      dictGet_dictSet_self, dictGet_dictSet_ne, dictGet]
  · intro hf
    by_cases hc : jTruthy c = true <;>
    by_cases hs : (jTruthy s && !jHas s "error") = true <;>
    refine ⟨?_, ?_, ?_, ?_⟩ <;>
    simp [processResults, refreshAssembleVars, refreshMemVars, refreshContactVars,
      refreshSlotsVars, refreshInitVars, slowDv0, hf, hc, hs,
      dictGet_dictSet_self, dictGet_dictSet_ne, dictGet]
  · by_cases hf : jTruthy (jGetD m "facts" (.arr [])) = true <;>
    by_cases hc : jTruthy c = true <;>
    by_cases hs : (jTruthy s && !jHas s "error") = true <;>
    refine ⟨?_, ?_, ?_, ?_, ?_⟩ <;>
    simp [processResults, refreshAssembleVars, refreshMemVars, refreshContactVars,
      refreshSlotsVars, refreshInitVars, slowDv0, hf, hc, hs,
      dictGet_dictSet_self, dictGet_dictSet_ne, dictGet]

/-- C4 witness: the two pipeline conjuncts of `c4_refresh_vs_slow_path` at
concrete sub-source results (one fact, no contact, empty slot list). -/
theorem c4_witness :
    (refresh_context_cache (envAll vFacts .null (.obj [("slots", .arr [])]))
        ⟨false, []⟩ (normalize_phone "15551234567") (some "c1")).written =
      some (refreshAssembleVars vFacts .null (.obj [("slots", .arr [])])) ∧
    (retell_inbound_webhook (envAll vFacts .null (.obj [("slots", .arr [])]))
        ⟨false, []⟩ (some "c1") (some "15551234567")).tasks =
      [.set_context_task (normalize_phone "15551234567")
         (processResults (slowDv0 "c1" "15551234567") vFacts .null
           (.obj [("slots", .arr [])]) slowPrompt),
       .update_all_systems (some "c1") "15551234567" (normalize_phone "15551234567")] :=
  ⟨(c4_refresh_vs_slow_path vFacts .null (.obj [("slots", .arr [])]) "c1"
      "15551234567" rfl).1,
   (c4_refresh_vs_slow_path vFacts .null (.obj [("slots", .arr [])]) "c1"
      "15551234567" rfl).2.1⟩

/-- C4 counterexample: with facts empty, no contact and an empty slot list,
the background refresh writes `customer_known = "unknown"` into the
full-context cache while the slow path caches `customer_known = "no"` — the
two cached payloads differ for the same sub-source results. -/
theorem c4_counterexample :
    ((refresh_context_cache
        (envAll (.obj [("facts", .arr [])]) .null (.obj [("slots", .arr [])]))
        ⟨false, []⟩ "15551234567" (some "c1")).written.map
      (fun d => dictGet d "customer_known")) = some (some (.str "unknown")) ∧
    ((retell_inbound_webhook
        (envAll (.obj [("facts", .arr [])]) .null (.obj [("slots", .arr [])]))
        ⟨false, []⟩ (some "c1") (some "15551234567")).tasks.map
      (fun t => match t with
        | BgTask.set_context_task _ d => some (dictGet d "customer_known")
        | _ => none)) = [some (some (.str "no")), none] := ⟨rfl, rfl⟩

/-! ## C5 — store faults never fail a fetch -/

/-- C5: for both read-through wrappers, when every cache-store operation
raises (`failing` store), a fetch still returns the value the upstream
collaborator produced — the read error is treated as a miss and the
write-back error is swallowed, so a store fault is never surfaced as a
failure of the fetch. -/
theorem c5_store_faults_do_not_fail_fetch
    (st : RedisState) (h : st.failing = true)
    (zep : String → Option String → Except Unit JVal)
    (ghl : String → String → String → String → Except Unit JVal)
    (u : String) (sess : Option String) (fr frS : Bool)
    (m w : JVal) (cal sd ed tz : String) (nowM nowS : Nat)
    (hz : zep u sess = .ok m) (hg : ghl cal sd ed tz = .ok w) :
    get_memory zep st nowM u sess fr = ⟨.ok m, st, 1⟩ ∧
    get_available_slots ghl st nowS cal sd ed tz frS = ⟨.ok w, st, 1⟩ := by
  constructor
  · simp [get_memory, redisGet, redisSetex, h, hz]
  · simp [get_available_slots, redisGet, redisSetex, h, hg]

/-- C5 witness: both wrappers on a failing store with concrete upstream
values. -/
theorem c5_witness :
    get_memory zepConst ⟨true, []⟩ 0 "u" none false = ⟨.ok vFacts, ⟨true, []⟩, 1⟩ ∧
    get_available_slots ghlConst ⟨true, []⟩ 0 "cal1" "a" "b" "tz" false =
      ⟨.ok (.obj [("slots", .arr [])]), ⟨true, []⟩, 1⟩ :=
  c5_store_faults_do_not_fail_fetch ⟨true, []⟩ rfl zepConst ghlConst "u" none false false
    vFacts (.obj [("slots", .arr [])]) "cal1" "a" "b" "tz" 0 0 rfl rfl

/-! ## C6 — per-source fault isolation on the slow path -/

/-- C6 (the code bug, evaluated): with the memory client unconfigured but
Supabase and the calendar configured, the contact upstream returns a full
record (`Ada`, 3 calls) and the slot upstream returns one slot, yet the
handler's fixed-position reads from the compacted `results` list assign
the *slots dict* to the `contact` variable (`customer_name` becomes null,
`total_calls` 0) and default the slots fields
(`has_availability = false`, `available_slots = []`): the successful
sources do not map to their own fields. -/
theorem c6_result_misindexing :
    envC6.get_contact_fast "15551234567" =
      .ok (.obj [("name", .str "Ada"), ("total_calls", .num 3)]) ∧
    envC6.ghl "cal1" "2024-01-15" "2024-01-22" "America/New_York" =
      .ok (.obj [("slots", .arr [.str "2024-01-15T14:00:00Z"])]) ∧
    ((retell_inbound_webhook envC6 ⟨false, []⟩ (some "c1")
        (some "15551234567")).response.map
      (fun dv => (dictGet dv "customer_name", dictGet dv "total_calls",
        dictGet dv "has_availability", dictGet dv "available_slots"))) =
      .ok (some .null, some (.num 0), some (.bool false), some (.arr [])) :=
  ⟨rfl, rfl, rfl⟩

/-! ## C7 — the cold-cache scenario -/

/-- C7: identity `15551234567` (normalized from `+15551234567`), cold
cache, memory source returning `{facts: ["likes blue"]}` and slot source
returning `{slots: ["2024-01-15T14:00:00Z"]}`: the assembled payload has
`customer_known = "yes"`, a `customer_summary` mentioning 1 fact,
`available_slots` containing exactly one formatted entry, and
`has_availability = true`. -/
theorem c7_cold_cache_scenario :
    normalize_phone "+15551234567" = "15551234567" ∧
    (retell_inbound_webhook envC7 ⟨false, []⟩ (some "c1")
        (some "+15551234567")).response = .ok c7payload ∧
    dictGet c7payload "customer_known" = some (.str "yes") ∧
    dictGet c7payload "customer_summary" = some (.str "Customer has 1 known facts") ∧
    dictGet c7payload "available_slots" = some (.arr [c7slotEntry]) ∧
    dictGet c7payload "has_availability" = some (.bool true) :=
  ⟨rfl, rfl, rfl, rfl, rfl, rfl⟩

/-! ## C8 — slot-cache invalidation by prefix -/

/-- C8 (amended): for every calendar id containing no character the Redis
glob pattern interprets (`*`, `?`, `[`, `\`) and every non-failing store
state, `invalidate_slot` leaves exactly the entries whose key does *not*
start with that calendar's `slots:{calendar_id}:` prefix — every key under
the prefix is deleted across all cached date ranges, and every other key
survives unchanged.  (An id containing a glob metacharacter is interpreted
by the SCAN `MATCH` pattern, deleting keys under other calendars' prefixes
and/or missing keys under the literal prefix, and on a failing store the
error is swallowed and nothing is deleted — see the counterexample.) -/
theorem c8_invalidate_deletes_exactly_prefix
    (st : RedisState) (cal : String)
    (hfail : st.failing = false) (hmeta : noGlobMeta cal = true) :
    (invalidate_slot st cal).entries =
      st.entries.filter (fun e => !strHasPrefix ("slots:" ++ cal ++ ":") e.key) := by
  have hall : (("slots:" ++ cal ++ ":").data.all
      (fun c => c != '*' && c != '?' && c != '[' && c != '\\')) = true := by
    rw [String.data_append, String.data_append, List.all_append, List.all_append]
    rw [show ("slots:".data.all
      (fun c => c != '*' && c != '?' && c != '[' && c != '\\')) = true from rfl]
    rw [show (":".data.all
      (fun c => c != '*' && c != '?' && c != '[' && c != '\\')) = true from rfl]
    rw [show (cal.data.all
      (fun c => c != '*' && c != '?' && c != '[' && c != '\\')) = true from hmeta]
    rfl
  have hpre : ∀ c ∈ ("slots:" ++ cal ++ ":").data,
      c ≠ '*' ∧ c ≠ '?' ∧ c ≠ '[' ∧ c ≠ '\\' := by
    intro c hc
    have h2 := List.all_eq_true.mp hall c hc
    simp only [Bool.and_eq_true, bne_iff_ne, ne_eq] at h2
    exact ⟨h2.1.1.1, h2.1.1.2, h2.1.2, h2.2⟩
  have hne : ("slots:" ++ cal ++ ":").data ≠ [] := by
    rw [String.data_append, String.data_append]
    simp
  have hpat : (slots_invalidate_pattern cal).data =
      ("slots:" ++ cal ++ ":").data ++ ['*'] := by
    show ("slots:" ++ cal ++ ":*").data = _
    rw [String.data_append, String.data_append, String.data_append]
    rw [show ":*".data = [':', '*'] from rfl, show ":".data = [':'] from rfl]
    simp [List.append_assoc]
  have hlen : ∀ t : String, t.length = t.data.length := fun _ => rfl
  have hmatch : ∀ k : String,
      globMatch (slots_invalidate_pattern cal) k =
        strHasPrefix ("slots:" ++ cal ++ ":") k := by
    intro k
    show redisGlobAux ((slots_invalidate_pattern cal).length + k.length + 2)
      (slots_invalidate_pattern cal).data k.data = _
    rw [hpat]
    rw [redisGlobAux_litPrefixStar _ _ _ hpre hne]
    · rfl
    · rw [hlen, hlen, hpat]
      simp
  rw [invalidate_slot, hfail]
  simp only [Bool.false_eq_true, if_false]
  apply List.filter_congr
  intro e _
  rw [hmatch e.key]

/-- C8 witness: a store seeded with three distinct date-range keys of
calendar `cal1` plus one `memory:` key; after `invalidate_slot` exactly the
non-prefix entry remains. -/
theorem c8_witness :
    (invalidate_slot stSeed "cal1").entries =
      stSeed.entries.filter (fun e => !strHasPrefix ("slots:" ++ "cal1" ++ ":") e.key) :=
  c8_invalidate_deletes_exactly_prefix stSeed "cal1" rfl rfl

/-- C8 counterexample, one conjunct per behavior the amendment restricts:
for the id `x*` the `*` is interpreted and `slots:xy:2024-01-01` — a key
under *another* calendar's prefix — is deleted; for the id `x[y]` the
class `[y]` is interpreted, so the key under the literal `slots:x[y]:`
prefix survives while calendar `xy`'s key is deleted; for the id `x\` the
`\` escapes the following `:`, so the key under the literal prefix
survives; and on a failing store the swallowed error leaves every key,
including one under the prefix, in place. -/
theorem c8_counterexample :
    ((invalidate_slot ⟨false, [⟨"slots:xy:2024-01-01", .null, 100⟩]⟩ "x*").entries = [] ∧
     strHasPrefix ("slots:" ++ "x*" ++ ":") "slots:xy:2024-01-01" = false) ∧
    ((invalidate_slot ⟨false, [⟨"slots:x[y]:2024-01-01", .null, 100⟩,
                               ⟨"slots:xy:2024-01-01", .null, 100⟩]⟩ "x[y]").entries =
       [⟨"slots:x[y]:2024-01-01", .null, 100⟩] ∧
     strHasPrefix ("slots:" ++ "x[y]" ++ ":") "slots:x[y]:2024-01-01" = true) ∧
    ((invalidate_slot ⟨false, [⟨"slots:x\\:2024-01-01", .null, 100⟩]⟩ "x\\").entries =
       [⟨"slots:x\\:2024-01-01", .null, 100⟩] ∧
     strHasPrefix ("slots:" ++ "x\\" ++ ":") "slots:x\\:2024-01-01" = true) ∧
    ((invalidate_slot ⟨true, [⟨"slots:cal1:2024-01-01", .null, 100⟩]⟩ "cal1").entries =
       [⟨"slots:cal1:2024-01-01", .null, 100⟩] ∧
     strHasPrefix ("slots:" ++ "cal1" ++ ":") "slots:cal1:2024-01-01" = true) :=
  ⟨⟨rfl, rfl⟩, ⟨rfl, rfl⟩, ⟨rfl, rfl⟩, ⟨rfl, rfl⟩⟩

/-! ## C9 — identity normalization -/

/-- C9: the identity normalization applied to the caller's phone number is
deterministic (the same raw input always produces the same key) and
idempotent (normalizing an already-normalized key returns it unchanged). -/
theorem c9_normalize_deterministic_idempotent :
    (∀ s t : String, s = t → normalize_phone s = normalize_phone t) ∧
    (∀ s : String, normalize_phone (normalize_phone s) = normalize_phone s) := by
  constructor
  · intro s t h; rw [h]
  · intro s
    have hmem : ∀ a ∈ (normalize_phone s).data, a ≠ '+' ∧ a ≠ '-' ∧ a ≠ ' ' := by
      intro a ha
      unfold normalize_phone at ha
      have h1 := mem_pyRemoveChar ha
      have h2 := mem_pyRemoveChar h1.1
      have h3 := mem_pyRemoveChar h2.1
      exact ⟨h3.2, h2.2, h1.2⟩
    show pyRemoveChar (pyRemoveChar (pyRemoveChar (normalize_phone s) '+') '-') ' ' =
      normalize_phone s
    rw [pyRemoveChar_eq_self (fun a ha => (hmem a ha).1)]
    rw [pyRemoveChar_eq_self (fun a ha => (hmem a ha).2.1)]
    rw [pyRemoveChar_eq_self (fun a ha => (hmem a ha).2.2)]

/-! ## C10 — slot formatting: cap at 5, unparseable slots omitted -/

/-- C10: in both the slow-path assembly and the background refresh, the
`available_slots` field is always a well-formed array of at most 5 entries
— even when the upstream returns more — and every entry arises from one of
the first five slot strings via successful parsing; a slot string that
fails to parse contributes no entry and never fails the assembly. -/
theorem c10_slots_capped_and_unparseable_omitted
    (dv0 : Dict) (zm c sr : JVal) (prompt : String) :
    (formatSlots (jGetList sr "slots")).length ≤ 5 ∧
    (∀ e ∈ formatSlots (jGetList sr "slots"),
       ∃ slot ∈ (jGetList sr "slots").take 5, formatSlot slot = some e) ∧
    (∃ fs, dictGet (processResults dv0 zm c sr prompt) "available_slots" =
        some (.arr fs) ∧ fs.length ≤ 5) ∧
    (∃ fs, dictGet (refreshAssembleVars zm c sr) "available_slots" =
        some (.arr fs) ∧ fs.length ≤ 5) := by
  have hlen : ∀ L : List JVal, (formatSlots L).length ≤ 5 := by
    intro L
    calc (formatSlots L).length ≤ (L.take 5).length := List.length_filterMap_le _ _
      _ ≤ 5 := List.length_take_le _ _
  refine ⟨hlen _, ?_, ?_, ?_⟩
  · intro e he
    exact List.mem_filterMap.mp he
  · by_cases hs : (jTruthy sr && !jHas sr "error") = true
    · refine ⟨formatSlots (jGetList sr "slots"), ?_, hlen _⟩
      by_cases hf : jTruthy (jGetD zm "facts" (.arr [])) = true <;>
      by_cases hc : jTruthy c = true <;>
      simp [processResults, hf, hc, hs, dictGet_dictSet_self, dictGet_dictSet_ne, dictGet]
    · refine ⟨[], ?_, by simp⟩
      by_cases hf : jTruthy (jGetD zm "facts" (.arr [])) = true <;>
      by_cases hc : jTruthy c = true <;>
      simp [processResults, hf, hc, hs, dictGet_dictSet_self, dictGet_dictSet_ne, dictGet]
  · by_cases hs : (jTruthy sr && !jHas sr "error") = true
    · refine ⟨formatSlots (jGetList sr "slots"), ?_, hlen _⟩
      by_cases hf : jTruthy (jGetD zm "facts" (.arr [])) = true <;>
      by_cases hc : jTruthy c = true <;>
      simp [refreshAssembleVars, refreshMemVars, refreshContactVars, refreshSlotsVars,
        refreshInitVars, hf, hc, hs, dictGet_dictSet_self, dictGet_dictSet_ne, dictGet]
    · refine ⟨[], ?_, by simp⟩
      by_cases hf : jTruthy (jGetD zm "facts" (.arr [])) = true <;>
      by_cases hc : jTruthy c = true <;>
      simp [refreshAssembleVars, refreshMemVars, refreshContactVars, refreshSlotsVars,
        refreshInitVars, hf, hc, hs, dictGet_dictSet_self, dictGet_dictSet_ne, dictGet]
